import Mathlib

/-!
Verification of the `questions` modmail plugin
(`src/questions/questions.py`).

The plugin runs a scripted interview when a modmail thread opens
(`Questions.on_thread_ready`): it loads a configuration document, sends an
optional intro, asks each configured question and waits (with timeout) for a
DM reply, records answers in a dict keyed by question text, posts and pins a
summary embed, sends an optional outro, and moves the thread channel to a
configured category.  Three operator commands (`configquestions`,
`configoutro`, `configintro`) build that configuration document through
channel-scoped interviews and persist it with a Mongo `$set` upsert.

We shallowly embed the plugin: replies are supplied as a total function from
wait index to `Option Msg` (`none` models an `asyncio.TimeoutError`), side
effects are accumulated in an explicit trace, and the Mongo document is a
structure of optional fields with `$set` modelled as a field-wise merge.
-/

namespace QuestionsPlugin

/-- A message attachment: `discord.Attachment` with the two fields the
plugin reads (`filename`, `url`). -/
structure Attachment where
  filename : String
  url : String
  deriving DecidableEq, Repr

/-- A message author, with the fields the summary step reads:
`m.author.name` and the avatar url (`m.author.get("avatar", {}).url`). -/
structure Author where
  name : String
  avatarUrl : String
  deriving DecidableEq, Repr

/-- An inbound message as the plugin consumes it: text content,
attachments, author. -/
structure Msg where
  content : String
  attachments : List Attachment
  author : Author
  deriving DecidableEq, Repr

/-- The configuration document stored under `{'_id': 'config'}` in the
plugin's database partition.  Every field is optional: a Mongo document
holds only the keys that some `$set` wrote. -/
structure ConfigDoc where
  questions : Option (List String) := none
  intro : Option String := none
  outro : Option String := none
  move_to : Option String := none
  deriving DecidableEq, Repr

/-- Side effects performed by `on_thread_ready`, in program order. -/
inductive Effect where
  /-- `thread.reply(q_message)` with the given text content. -/
  | reply (content : String)
  /-- `thread.close(closer=..., message=reason)`. -/
  | close (reason : String)
  /-- `thread.channel.send(embed=...)`: the embed's fields as
  (name, value, inline) triples in insertion order, and the author
  metadata set by `embed.set_author`. -/
  | sendSummary (fields : List (String × String × Bool))
      (authorName : String) (authorAvatarUrl : String)
  /-- `message.pin()` on the summary message. -/
  | pin
  /-- `logger.warning("Move-to category does not exist. Not moving.")`. -/
  | warnNoMoveTo
  /-- `thread.channel.edit(category=move_to, sync_permissions=True)`. -/
  | moveChannel (categoryId : Int) (syncPermissions : Bool)
  deriving DecidableEq, Repr

/-- The mutable state of the thread that `on_thread_ready` may touch:
its channel's category and whether/why it was closed. -/
structure ThreadState where
  category : Option Int
  closed : Option String
  deriving DecidableEq, Repr

/-- The bot environment: which category channels exist.
`bot.get_channel(i)` returns a channel iff `i` is listed. -/
structure Env where
  categories : List Int
  deriving DecidableEq, Repr

/-- `bot.get_channel(int(move_to))`: `some i` iff a channel with that id
exists. -/
def Env.getChannel (e : Env) (i : Int) : Option Int :=
  if i ∈ e.categories then some i else none

/-- Uncaught Python exceptions the handler can raise. -/
inductive RunError where
  /-- `config['move_to']` with no such key. -/
  | keyError (key : String)
  /-- `int(...)` on a non-numeric string. -/
  | valueError
  /-- attribute access on `None` (e.g. `m.author` with `m = None`). -/
  | attributeError
  deriving DecidableEq, Repr

/-- How the handler terminated: normally (including early returns), or by
raising an exception. -/
inductive RunOutcome where
  | normal
  | error (e : RunError)
  deriving DecidableEq, Repr

/-- Result of one `on_thread_ready` invocation: the effect trace, the
final `responses` dict (as an insertion-ordered association list), the
final thread state, and the termination outcome. -/
structure RunResult where
  effects : List Effect
  responses : List (String × String)
  thread : ThreadState
  outcome : RunOutcome
  deriving DecidableEq, Repr

/-- Python dict assignment `d[k] = v`: replace the value in place if the
key is present (keeping its position), else append the new entry. -/
def dictInsert (d : List (String × String)) (k v : String) :
    List (String × String) :=
  if d.any (fun p => p.1 = k) then
    d.map (fun p => if p.1 = k then (k, v) else p)
  else d ++ [(k, v)]

/-- Python `str.strip()`: remove leading and trailing whitespace.
Implemented over the character list so that it reduces in the kernel. -/
def pyStrip (s : String) : String :=
  ⟨((s.data.dropWhile Char.isWhitespace).reverse.dropWhile
      Char.isWhitespace).reverse⟩

/-- Answer derivation from a reply (`questions.py` lines 71-75):
`answer = m.content if m.content.strip() else "<No Message Content>"`,
then if attachments are present, `answer += "\n"` followed by
`answer += f"\n{filename}: {url}"` (with the filename backtick-quoted)
for each attachment. -/
def deriveAnswer (m : Msg) : String :=
  let answer := if pyStrip m.content = "" then "<No Message Content>" else m.content
  if m.attachments.length > 0 then
    m.attachments.foldl
      (fun acc a => acc ++ "\n`" ++ a.filename ++ "`: " ++ a.url)
      (answer ++ "\n")
  else answer

/-- The fixed close reason used on question timeout. -/
def closeReason : String :=
  "Closed due to inactivity and not responding to questions."

/-- Result of the ask loop: effects emitted, the `responses` dict, the
last reply message `m`, and whether a timeout aborted the loop. -/
structure LoopOut where
  effects : List Effect
  responses : List (String × String)
  lastMsg : Option Msg
  timedOut : Bool
  deriving DecidableEq, Repr

/-- The ask loop of `on_thread_ready` (lines 60-77): for each question,
reply with the question text, wait for the recipient's DM reply (wait
index `i`; `none` models `asyncio.TimeoutError`), on timeout close the
thread and return, on success record the derived answer under the
question text. -/
def askLoop (replies : Nat → Option Msg) :
    List String → Nat → List (String × String) → Option Msg → LoopOut
  | [], _, resp, last => ⟨[], resp, last, false⟩
  | q :: qs, i, resp, last =>
    match replies i with
    | none => ⟨[Effect.reply q, Effect.close closeReason], resp, last, true⟩
    | some m =>
      let rest := askLoop replies qs (i + 1)
        (dictInsert resp q (deriveAnswer m)) (some m)
      ⟨Effect.reply q :: rest.effects, rest.responses, rest.lastMsg,
        rest.timedOut⟩

/-- The intro step (lines 55-57): `if config.get('intro'):` — a missing
key and an empty string are both falsy, so a reply is sent only for a
present, non-empty intro. -/
def introEffects (cfg : ConfigDoc) : List Effect :=
  match cfg.intro with
  | some s => if s = "" then [] else [Effect.reply s]
  | none => []

/-- The outro step (lines 87-89), same truthiness as the intro. -/
def outroEffects (cfg : ConfigDoc) : List Effect :=
  match cfg.outro with
  | some s => if s = "" then [] else [Effect.reply s]
  | none => []

/-- Python `int(s)` on a list of characters that must all be digits. -/
def parseDigits : List Char → Option Nat
  | [] => none
  | cs =>
    if cs.all Char.isDigit then
      some (cs.foldl (fun n c => n * 10 + (c.toNat - 48)) 0)
    else none

/-- Python `int(s)` for decimal strings: surrounding whitespace stripped,
optional sign, at least one digit; anything else raises `ValueError`
(modelled as `none`). -/
def parseIntPy (s : String) : Option Int :=
  match (pyStrip s).toList with
  | '+' :: rest => (parseDigits rest).map Int.ofNat
  | '-' :: rest => (parseDigits rest).map (fun n => -(Int.ofNat n : Int))
  | cs => (parseDigits cs).map Int.ofNat

/-- The summary embed's fields (lines 82-84): one field per `responses`
entry, in dict insertion order, `inline=False`. -/
def summaryFields (resp : List (String × String)) :
    List (String × String × Bool) :=
  resp.map (fun p => (p.1, p.2, false))

/-- `Questions.on_thread_ready` (lines 40-95).  Inputs: the stored config
document (`none` when `find_one` returns no document; `or {}` makes the
two cases coincide), the reply oracle (wait index `i`; `none` is a
timeout), the bot environment and the initial thread state. -/
def on_thread_ready (config : Option ConfigDoc) (replies : Nat → Option Msg)
    (env : Env) (th : ThreadState) : RunResult :=
  let cfg := config.getD {}
  let qs := (cfg.questions).getD []
  -- `if not config.get('questions'): return` — missing key, None and
  -- the empty list are all falsy.
  if qs.isEmpty then ⟨[], [], th, RunOutcome.normal⟩
  else
    let intro := introEffects cfg
    let loop := askLoop replies qs 0 [] none
    if loop.timedOut then
      ⟨intro ++ loop.effects, loop.responses,
        { th with closed := some closeReason }, RunOutcome.normal⟩
    else
      match loop.lastMsg with
      | none =>
        -- unreachable when `qs` is non-empty: `m.author` with `m = None`
        ⟨intro ++ loop.effects, loop.responses, th,
          RunOutcome.error RunError.attributeError⟩
      | some m =>
        let summary := Effect.sendSummary (summaryFields loop.responses)
          m.author.name m.author.avatarUrl
        let base := intro ++ loop.effects ++ [summary, Effect.pin]
          ++ outroEffects cfg
        match cfg.move_to with
        | none =>
          ⟨base, loop.responses, th, RunOutcome.error (RunError.keyError "move_to")⟩
        | some mvStr =>
          match parseIntPy mvStr with
          | none => ⟨base, loop.responses, th, RunOutcome.error RunError.valueError⟩
          | some mvId =>
            match env.getChannel mvId with
            | none =>
              ⟨base ++ [Effect.warnNoMoveTo], loop.responses, th,
                RunOutcome.normal⟩
            | some c =>
              ⟨base ++ [Effect.moveChannel c true], loop.responses,
                { th with category := some c }, RunOutcome.normal⟩

/-- Result of one operator command: the messages sent to the invoking
channel (`ctx.send` payloads, in order), the resulting store content, and
whether `find_one_and_update` was executed. -/
structure CmdResult where
  sent : List String
  store : Option ConfigDoc
  wrote : Bool
  deriving DecidableEq, Repr

/-- The per-question loop of `configquestions` (lines 116-124): for
question numbers `i, i+1, ...` with `remaining` iterations left, prompt,
wait for the operator's channel reply (wait index = question number;
`none` is a timeout), abort on timeout or on empty content
(`if not m.content`), else accumulate.  Returns the sent messages and
`some` accumulated list on completion, `none` on abort. -/
def cqLoop (replies : Nat → Option Msg) :
    Nat → Nat → List String → List String × Option (List String)
  | _, 0, acc => ([], some acc)
  | i, r + 1, acc =>
    let prompt := "What\x27s question #" ++ toString i ++ "?"
    match replies i with
    | none => ([prompt, "Timed out."], none)
    | some m =>
      if m.content = "" then ([prompt, "Question must be text-only."], none)
      else
        let rest := cqLoop replies (i + 1) r (acc ++ [m.content])
        (prompt :: rest.1, rest.2)

/-- `Questions.configquestions` (lines 97-129).  `moveToId` is the id of
the category channel the command converter resolved up front; `store` is
the current config document; wait index 0 is the count reply, wait index
`i ≥ 1` the reply for question #`i`.  The write is
`find_one_and_update({'_id': 'config'}, {'$set': {'questions': ...,
'move_to': str(move_to.id)}}, upsert=True)`: a field-wise merge into the
existing document (or a fresh one). -/
def configquestions (store : Option ConfigDoc) (moveToId : Int)
    (replies : Nat → Option Msg) : CmdResult :=
  let sent0 := ["How many questions do you have?"]
  match replies 0 with
  | none => ⟨sent0 ++ ["Timed out."], store, false⟩
  | some m =>
    match parseIntPy m.content with
    | none => ⟨sent0 ++ ["Invalid input."], store, false⟩
    | some count =>
      let loop := cqLoop replies 1 count.toNat []
      match loop.2 with
      | none => ⟨sent0 ++ loop.1, store, false⟩
      | some qs =>
        let doc := store.getD {}
        ⟨sent0 ++ loop.1 ++ ["Saved"],
          some { doc with questions := some qs,
                          move_to := some (toString moveToId) },
          true⟩

/-- `Questions.configoutro` (lines 131-146): one prompt, one channel
reply; abort on timeout or empty content; else `$set` `outro` and
`move_to` by upsert-merge. -/
def configoutro (store : Option ConfigDoc) (moveToId : Int)
    (reply : Option Msg) : CmdResult :=
  let sent0 := ["Type the outro you want"]
  match reply with
  | none => ⟨sent0 ++ ["Timed out."], store, false⟩
  | some m =>
    if m.content = "" then ⟨sent0 ++ ["Outro must be text-only."], store, false⟩
    else
      let doc := store.getD {}
      ⟨sent0 ++ ["Saved"],
        some { doc with outro := some m.content,
                        move_to := some (toString moveToId) },
        true⟩

/-- `Questions.configintro` (lines 148-163): same shape as `configoutro`
for the `intro` field. -/
def configintro (store : Option ConfigDoc) (moveToId : Int)
    (reply : Option Msg) : CmdResult :=
  let sent0 := ["Type the intro you want"]
  match reply with
  | none => ⟨sent0 ++ ["Timed out."], store, false⟩
  | some m =>
    if m.content = "" then ⟨sent0 ++ ["Intro must be text-only."], store, false⟩
    else
      let doc := store.getD {}
      ⟨sent0 ++ ["Saved"],
        some { doc with intro := some m.content,
                        move_to := some (toString moveToId) },
        true⟩

/-! ## Spec-side definitions

Independent formulations of the spec's descriptions, to be compared with
the embedded code above. -/

/-- Spec-side answer record: one entry per question, in question order,
pairing the question with the derived answer of the reply at the matching
wait index. -/
def expectedResponses (msgs : Nat → Msg) :
    List String → Nat → List (String × String)
  | [], _ => []
  | q :: qs, i => (q, deriveAnswer (msgs i)) :: expectedResponses msgs qs (i + 1)

/-- The record built by the ask loop alone: successive dict assignments
`responses[question] = answer`, one per question. -/
def recordAnswers (msgs : Nat → Msg) :
    List String → Nat → List (String × String) → List (String × String)
  | [], _, resp => resp
  | q :: qs, i, resp =>
    recordAnswers msgs qs (i + 1) (dictInsert resp q (deriveAnswer (msgs i)))

/-- The value of the loop variable `m` after a fully-answered loop. -/
def lastMsgOf (msgs : Nat → Msg) : List String → Nat → Option Msg → Option Msg
  | [], _, last => last
  | _ :: qs, i, _ => lastMsgOf msgs qs (i + 1) (some (msgs i))

/-- Spec-side: the newline-separated list of backtick-quoted
`filename`: url pairs. -/
def attachmentLines : List Attachment → String
  | [] => ""
  | [a] => "`" ++ a.filename ++ "`: " ++ a.url
  | a :: rest => "`" ++ a.filename ++ "`: " ++ a.url ++ "\n" ++ attachmentLines rest

/-- Spec-side answer derivation (as amended): the text, or the sentinel
placeholder when the text is empty or whitespace-only; when attachments
are present, followed by a blank line (two newlines) and the
newline-separated attachment list. -/
def deriveAnswerSpec (m : Msg) : String :=
  let base := if pyStrip m.content = "" then "<No Message Content>" else m.content
  if m.attachments.isEmpty then base
  else base ++ "\n\n" ++ attachmentLines m.attachments

/-- The prompts sent for question numbers `i, i+1, ..., i+d-1`. -/
def promptsFrom : Nat → Nat → List String
  | _, 0 => []
  | i, d + 1 =>
    ("What\x27s question #" ++ toString i ++ "?") :: promptsFrom (i + 1) d

/-- The field count of every summary embed in an effect trace. -/
def summaryFieldCounts (effs : List Effect) : List Nat :=
  effs.filterMap (fun e =>
    match e with
    | Effect.sendSummary fs _ _ => some fs.length
    | _ => none)

/-- The tail of `on_thread_ready` after a fully-answered ask loop
(lines 79-95), written out with the loop's outputs expressed through
`recordAnswers` and the last reply: used to state what the handler does
on the success path. -/
def successResult (cfg : ConfigDoc) (qs : List String) (msgs : Nat → Msg)
    (env : Env) (th : ThreadState) : RunResult :=
  let resp := recordAnswers msgs qs 0 []
  let m := msgs (qs.length - 1)
  let base := introEffects cfg ++ (qs.map Effect.reply ++
    ([Effect.sendSummary (summaryFields resp) m.author.name m.author.avatarUrl,
      Effect.pin] ++ outroEffects cfg))
  match cfg.move_to with
  | none => ⟨base, resp, th, RunOutcome.error (RunError.keyError "move_to")⟩
  | some mvStr =>
    match parseIntPy mvStr with
    | none => ⟨base, resp, th, RunOutcome.error RunError.valueError⟩
    | some mvId =>
      match env.getChannel mvId with
      | none => ⟨base ++ [Effect.warnNoMoveTo], resp, th, RunOutcome.normal⟩
      | some c =>
        ⟨base ++ [Effect.moveChannel c true], resp,
          { th with category := some c }, RunOutcome.normal⟩

/-! ## Concrete fixtures for witnesses and counterexamples -/

/-- A test author. -/
def authA : Author := ⟨"alice", "http://avatar"⟩

/-- A plain non-empty text reply. -/
def msgHello : Msg := ⟨"hello", [], authA⟩

/-- An empty-text reply carrying one attachment named a.png. -/
def msgEmptyPng : Msg := ⟨"", [⟨"a.png", "http://x"⟩], authA⟩

/-- A config with a duplicated question. -/
def cfgDup : ConfigDoc := { questions := some ["a", "a"], move_to := some "5" }

/-- A config with two distinct questions. -/
def cfgTwo : ConfigDoc := { questions := some ["q1", "q2"], move_to := some "5" }

/-- An environment in which only category 5 exists. -/
def envA : Env := ⟨[5]⟩

/-- An initial thread state in category 1, not closed. -/
def thA : ThreadState := ⟨some 1, none⟩

/-- A reply whose text is not an integer. -/
def msgAbc : Msg := ⟨"abc", [], authA⟩

/-- A reply with text 0. -/
def msgZero : Msg := ⟨"0", [], authA⟩

/-- A reply with text 2. -/
def msgTwo : Msg := ⟨"2", [], authA⟩

/-- A reply with empty text and no attachments. -/
def msgEmptyTxt : Msg := ⟨"", [], authA⟩

/-- A plain text reply for the outro/intro commands. -/
def msgBye : Msg := ⟨"bye", [], authA⟩

/-- A config document that already has a questions field. -/
def docQx : ConfigDoc := { questions := some ["x"] }

/-- A config with one question and no move_to key. -/
def cfgNoMove : ConfigDoc := { questions := some ["q"] }

/-! ## Helper lemmas -/

theorem dictInsert_fresh (d : List (String × String)) (k v : String)
    (h : ∀ p ∈ d, p.1 ≠ k) : dictInsert d k v = d ++ [(k, v)] := by
  have ha : (d.any fun p => decide (p.1 = k)) = false := by
    simp only [List.any_eq_false, decide_eq_true_eq]
    exact h
  simp [dictInsert, ha]

theorem mem_dictInsert (d : List (String × String)) (k v : String)
    (p : String × String) (hp : p ∈ dictInsert d k v) : p.1 = k ∨ p ∈ d := by
  unfold dictInsert at hp
  split at hp
  · obtain ⟨q, hq, hpq⟩ := List.mem_map.mp hp
    split at hpq
    · left; rw [← hpq]
    · right; rw [← hpq]; exact hq
  · rcases List.mem_append.mp hp with h | h
    · right; exact h
    · left; simp only [List.mem_singleton] at h; rw [h]

theorem expectedResponses_map_fst (msgs : Nat → Msg) :
    ∀ (qs : List String) (i : Nat),
    (expectedResponses msgs qs i).map Prod.fst = qs := by
  intro qs
  induction qs with
  | nil => intro i; simp [expectedResponses]
  | cons q qs ih => intro i; simp [expectedResponses, ih]

theorem recordAnswers_eq_expected (msgs : Nat → Msg) :
    ∀ (qs : List String) (i : Nat) (resp : List (String × String)),
    qs.Nodup → (∀ q ∈ qs, ∀ p ∈ resp, p.1 ≠ q) →
    recordAnswers msgs qs i resp = resp ++ expectedResponses msgs qs i := by
  intro qs
  induction qs with
  | nil => intro i resp _ _; simp [recordAnswers, expectedResponses]
  | cons q qs ih =>
    intro i resp hnd hfresh
    have hins : dictInsert resp q (deriveAnswer (msgs i)) =
        resp ++ [(q, deriveAnswer (msgs i))] :=
      dictInsert_fresh _ _ _ (fun p hp => hfresh q (by simp) p hp)
    have hqs : q ∉ qs ∧ qs.Nodup := List.nodup_cons.mp hnd
    have hfresh' : ∀ q' ∈ qs,
        ∀ p ∈ resp ++ [(q, deriveAnswer (msgs i))], p.1 ≠ q' := by
      intro q' hq' p hp
      rcases List.mem_append.mp hp with h1 | h2
      · exact hfresh q' (List.mem_cons_of_mem _ hq') p h1
      · simp only [List.mem_singleton] at h2
        rw [h2]
        intro hcontra
        have hq2 : q = q' := hcontra
        exact hqs.1 (by rw [hq2]; exact hq')
    rw [recordAnswers, hins, ih (i + 1) _ hqs.2 hfresh']
    simp [expectedResponses]

theorem askLoop_all_some (msgs : Nat → Msg) :
    ∀ (qs : List String) (i : Nat) (resp : List (String × String))
      (last : Option Msg),
    askLoop (fun n => some (msgs n)) qs i resp last =
      ⟨qs.map Effect.reply, recordAnswers msgs qs i resp,
       lastMsgOf msgs qs i last, false⟩ := by
  intro qs
  induction qs with
  | nil => intro i resp last; simp [askLoop, recordAnswers, lastMsgOf]
  | cons q qs ih =>
    intro i resp last
    simp [askLoop, recordAnswers, lastMsgOf, ih]

theorem lastMsgOf_eq (msgs : Nat → Msg) :
    ∀ (qs : List String) (i : Nat) (last : Option Msg), qs ≠ [] →
    lastMsgOf msgs qs i last = some (msgs (i + qs.length - 1)) := by
  intro qs
  induction qs with
  | nil => intro i last h; exact absurd rfl h
  | cons q qs ih =>
    intro i last _
    by_cases hq : qs = []
    · subst hq; simp [lastMsgOf]
    · rw [show lastMsgOf msgs (q :: qs) i last
          = lastMsgOf msgs qs (i + 1) (some (msgs i)) from rfl,
        ih (i + 1) _ hq]
      have : qs.length ≠ 0 := fun h => hq (List.length_eq_zero.mp h)
      simp only [Option.some.injEq]
      congr 1
      simp only [List.length_cons]
      omega

theorem askLoop_responses_keys (replies : Nat → Option Msg) :
    ∀ (qs : List String) (i : Nat) (resp : List (String × String))
      (last : Option Msg),
    ∀ p ∈ (askLoop replies qs i resp last).responses, p.1 ∈ qs ∨ p ∈ resp := by
  intro qs
  induction qs with
  | nil => intro i resp last p hp; right; simpa [askLoop] using hp
  | cons q qs ih =>
    intro i resp last p hp
    rw [askLoop] at hp
    cases hr : replies i with
    | none =>
      rw [hr] at hp
      right
      simpa using hp
    | some m =>
      rw [hr] at hp
      simp only at hp
      rcases ih (i + 1) (dictInsert resp q (deriveAnswer m)) (some m) p hp with
        h | h
      · left; exact List.mem_cons_of_mem _ h
      · rcases mem_dictInsert _ _ _ _ h with h1 | h1
        · left; rw [h1]; exact List.mem_cons_self _ _
        · right; exact h1

theorem askLoop_timeout (replies : Nat → Option Msg) :
    ∀ (k : Nat) (qs : List String) (i : Nat) (resp : List (String × String))
      (last : Option Msg),
    k < qs.length → (∀ j, j < k → (replies (i + j)).isSome) →
    replies (i + k) = none →
    askLoop replies qs i resp last =
      ⟨(qs.take (k + 1)).map Effect.reply ++ [Effect.close closeReason],
       (askLoop replies (qs.take k) i resp last).responses,
       (askLoop replies (qs.take k) i resp last).lastMsg, true⟩ := by
  intro k
  induction k with
  | zero =>
    intro qs i resp last hk hb ht
    simp only [Nat.add_zero] at ht
    match qs, hk with
    | q :: qs, _ =>
      simp [askLoop, ht]
  | succ k ih =>
    intro qs i resp last hk hb ht
    match qs, hk with
    | q :: qs, hk =>
      have h0 : (replies i).isSome := by simpa using hb 0 (Nat.succ_pos k)
      obtain ⟨m, hm⟩ := Option.isSome_iff_exists.mp h0
      have hb' : ∀ j, j < k → (replies (i + 1 + j)).isSome := by
        intro j hj
        have := hb (j + 1) (by omega)
        rwa [show i + (j + 1) = i + 1 + j by omega] at this
      have ht' : replies (i + 1 + k) = none := by
        rwa [show i + 1 + k = i + (k + 1) by omega]
      have hk' : k < qs.length := by
        simpa using Nat.lt_of_succ_lt_succ hk
      simp only [List.take, askLoop, hm]
      rw [ih qs (i + 1) (dictInsert resp q (deriveAnswer m)) (some m) hk' hb' ht']
      simp

theorem cqLoop_empty_abort (replies : Nat → Option Msg) :
    ∀ (d r i : Nat) (acc : List String),
    d < r →
    (∀ t, t < d → ∃ m, replies (i + t) = some m ∧ m.content ≠ "") →
    (∃ mj, replies (i + d) = some mj ∧ mj.content = "") →
    cqLoop replies i r acc =
      (promptsFrom i (d + 1) ++ ["Question must be text-only."], none) := by
  intro d
  induction d with
  | zero =>
    intro r i acc hr hprev hempty
    obtain ⟨mj, hmj, hc⟩ := hempty
    simp only [Nat.add_zero] at hmj
    match r, hr with
    | r + 1, _ =>
      simp [cqLoop, hmj, hc, promptsFrom]
  | succ d ih =>
    intro r i acc hr hprev hempty
    match r, hr with
    | r + 1, hr =>
      obtain ⟨m0, hm0, hc0⟩ := hprev 0 (Nat.succ_pos d)
      simp only [Nat.add_zero] at hm0
      have hprev' : ∀ t, t < d →
          ∃ m, replies (i + 1 + t) = some m ∧ m.content ≠ "" := by
        intro t ht
        obtain ⟨m, hm, hc⟩ := hprev (t + 1) (by omega)
        exact ⟨m, by rwa [show i + 1 + t = i + (t + 1) by omega], hc⟩
      have hempty' : ∃ mj, replies (i + 1 + d) = some mj ∧ mj.content = "" := by
        obtain ⟨mj, hmj, hc⟩ := hempty
        exact ⟨mj, by rwa [show i + 1 + d = i + (d + 1) by omega], hc⟩
      simp only [cqLoop, hm0, hc0, if_neg hc0]
      rw [ih r (i + 1) (acc ++ [m0.content]) (by omega) hprev' hempty']
      simp [promptsFrom]

theorem cqLoop_complete (replies : Nat → Option Msg) :
    ∀ (r i : Nat) (acc qs : List String),
    (cqLoop replies i r acc).2 = some qs →
    ∀ t, t < r → ∃ m, replies (i + t) = some m ∧ m.content ≠ "" := by
  intro r
  induction r with
  | zero => intro i acc qs _ t ht; omega
  | succ r ih =>
    intro i acc qs h t ht
    rw [cqLoop] at h
    cases hr : replies i with
    | none => rw [hr] at h; simp at h
    | some m =>
      rw [hr] at h
      by_cases hc : m.content = ""
      · simp [hc] at h
      · simp only [if_neg hc] at h
        cases t with
        | zero => exact ⟨m, by simpa using hr, hc⟩
        | succ t =>
          obtain ⟨m', hm', hc'⟩ :=
            ih (i + 1) (acc ++ [m.content]) qs (by simpa using h) t (by omega)
          exact ⟨m', by rwa [show i + (t + 1) = i + 1 + t by omega], hc'⟩

theorem on_thread_ready_timeout (cfg : ConfigDoc) (qs : List String)
    (replies : Nat → Option Msg) (env : Env) (th : ThreadState) (k : Nat)
    (hq : cfg.questions = some qs) (hk : k < qs.length)
    (hb : ∀ j, j < k → (replies j).isSome) (ht : replies k = none) :
    on_thread_ready (some cfg) replies env th =
      ⟨introEffects cfg ++
         ((qs.take (k + 1)).map Effect.reply ++ [Effect.close closeReason]),
       (askLoop replies (qs.take k) 0 [] none).responses,
       { th with closed := some closeReason }, RunOutcome.normal⟩ := by
  have hb0 : ∀ j, j < k → (replies (0 + j)).isSome := by simpa using hb
  have ht0 : replies (0 + k) = none := by simpa using ht
  have hloop := askLoop_timeout replies k qs 0 [] none hk hb0 ht0
  have hempty : qs.isEmpty = false := by
    cases qs
    · simp at hk
    · rfl
  simp [on_thread_ready, hq, hempty, hloop]

theorem on_thread_ready_success (cfg : ConfigDoc) (qs : List String)
    (msgs : Nat → Msg) (env : Env) (th : ThreadState)
    (hq : cfg.questions = some qs) (hne : qs ≠ []) :
    on_thread_ready (some cfg) (fun n => some (msgs n)) env th =
      successResult cfg qs msgs env th := by
  have hloop := askLoop_all_some msgs qs 0 [] none
  have hlast := lastMsgOf_eq msgs qs 0 none hne
  have hempty : qs.isEmpty = false := by
    cases qs
    · exact absurd rfl hne
    · rfl
  simp [on_thread_ready, successResult, hq, hempty, hloop, hlast]

theorem configquestions_wrote_inv (store : Option ConfigDoc) (mvId : Int)
    (replies : Nat → Option Msg)
    (h : (configquestions store mvId replies).wrote = true) :
    ∃ m0 count, replies 0 = some m0 ∧ parseIntPy m0.content = some count ∧
      ∀ t, 1 ≤ t → t ≤ count.toNat →
        ∃ m, replies t = some m ∧ m.content ≠ "" := by
  unfold configquestions at h
  cases h0 : replies 0 with
  | none => rw [h0] at h; simp at h
  | some m0 =>
    rw [h0] at h
    simp only at h
    cases hc : parseIntPy m0.content with
    | none => rw [hc] at h; simp at h
    | some count =>
      rw [hc] at h
      simp only at h
      cases hl : (cqLoop replies 1 count.toNat []).2 with
      | none => rw [hl] at h; simp at h
      | some qs =>
        refine ⟨m0, count, rfl, hc, ?_⟩
        intro t h1 h2
        obtain ⟨m, hm, hcne⟩ :=
          cqLoop_complete replies count.toNat 1 [] qs hl (t - 1) (by omega)
        exact ⟨m, by rwa [show 1 + (t - 1) = t by omega] at hm, hcne⟩

theorem configquestions_wrote_store (store : Option ConfigDoc) (mvId : Int)
    (replies : Nat → Option Msg)
    (h : (configquestions store mvId replies).wrote = true) :
    ∃ qs, (configquestions store mvId replies).store =
      some { questions := some qs,
             intro := (store.getD {}).intro,
             outro := (store.getD {}).outro,
             move_to := some (toString mvId) } := by
  unfold configquestions at h ⊢
  cases h0 : replies 0 with
  | none => rw [h0] at h; simp at h
  | some m0 =>
    rw [h0] at h
    simp only at h
    cases hc : parseIntPy m0.content with
    | none => rw [hc] at h; simp at h
    | some count =>
      rw [hc] at h
      simp only at h
      cases hl : (cqLoop replies 1 count.toNat []).2 with
      | none => rw [hl] at h; simp at h
      | some qs => exact ⟨qs, by simp [h0, hc, hl]⟩

theorem foldl_attach_eq_lines (l : List Attachment) :
    ∀ (init : String), l ≠ [] →
    l.foldl (fun acc a => acc ++ "\n`" ++ a.filename ++ "`: " ++ a.url) init =
      init ++ "\n" ++ attachmentLines l := by
  have hsplit : ("\n`" : String) = "\n" ++ "`" := rfl
  induction l with
  | nil => intro init h; exact absurd rfl h
  | cons a rest ih =>
    intro init _
    cases rest with
    | nil =>
      simp only [List.foldl_cons, List.foldl_nil, attachmentLines, hsplit,
        String.append_assoc]
    | cons b rest' =>
      rw [List.foldl_cons, ih _ (by simp)]
      simp only [attachmentLines, hsplit, String.append_assoc]

theorem successResult_responses (cfg : ConfigDoc) (qs : List String)
    (msgs : Nat → Msg) (env : Env) (th : ThreadState) :
    (successResult cfg qs msgs env th).responses = recordAnswers msgs qs 0 [] := by
  rcases hm : cfg.move_to with _ | s
  · simp [successResult, hm]
  · rcases hp : parseIntPy s with _ | c
    · simp [successResult, hm, hp]
    · rcases hg : env.getChannel c with _ | x <;> simp [successResult, hm, hp, hg]

/-! ## Claim theorems -/

/-- Claim C3 counterexample: with empty text and one attachment named
a.png, the derived answer is not placeholder + one newline + the
attachment entry — the code emits two newlines between the (placeholder)
text and the attachment list. -/
theorem c3_counterexample :
    deriveAnswer msgEmptyPng ≠
      "<No Message Content>" ++ "\n" ++ "`a.png`: http://x" ∧
    deriveAnswer msgEmptyPng =
      "<No Message Content>" ++ "\n\n" ++ "`a.png`: http://x" := by
  constructor
  · decide
  · rfl

/-- Claim C3 (amended): the derived answer is the reply's text unchanged
when the text is non-empty (after stripping) and there are no
attachments; the sentinel placeholder when the text is empty or
whitespace-only; and when attachments are present, the text (or
placeholder) followed by a blank line (two newlines) and the
newline-separated list of backtick-quoted filename: url pairs. -/
theorem c3_answer_derivation (m : Msg) : deriveAnswer m = deriveAnswerSpec m := by
  unfold deriveAnswer deriveAnswerSpec
  cases hl : m.attachments with
  | nil => simp
  | cons a rest =>
    have hne : m.attachments ≠ [] := by rw [hl]; simp
    rw [← hl]
    have hlen : m.attachments.length > 0 := by rw [hl]; simp
    simp only [if_pos hlen, List.isEmpty_eq_true, hne, if_neg hne,
      foldl_attach_eq_lines m.attachments _ hne]
    have h2 : ("\n\n" : String) = "\n" ++ "\n" := rfl
    simp only [h2, String.append_assoc]
    simp

/-- Claim C4 counterexample: the operator reply 0 to the count prompt is
accepted (it parses as the non-positive integer 0) and the command
persists an empty questions list, so it is not the case that only a
positive integer count leads to persisting a questions list. -/
theorem c4_counterexample :
    parseIntPy msgZero.content = some 0 ∧
    configquestions none 5 (fun _ => some msgZero) =
      ⟨["How many questions do you have?", "Saved"],
       some { questions := some ([] : List String),
              move_to := some (toString (5 : Int)) }, true⟩ := by
  constructor
  · rfl
  · rfl

/-- Claim C4 (amended): the count reply is parsed as an integer (of any
sign); every reply whose text is not an integer makes the command abort
with the message Invalid input. and persist nothing; any integer count
proceeds toward persistence, a non-positive count persisting an empty
questions list. -/
theorem c4_nonint_aborts (store : Option ConfigDoc) (mvId : Int)
    (replies : Nat → Option Msg) (m : Msg)
    (h0 : replies 0 = some m) (hbad : parseIntPy m.content = none) :
    configquestions store mvId replies =
      ⟨["How many questions do you have?", "Invalid input."], store, false⟩ := by
  simp [configquestions, h0, hbad]

/-- Witness for C4 at the concrete non-integer reply abc. -/
theorem c4_witness :
    (fun _ : Nat => some msgAbc) 0 = some msgAbc ∧
    parseIntPy msgAbc.content = none ∧
    configquestions none 5 (fun _ => some msgAbc) =
      ⟨["How many questions do you have?", "Invalid input."], none, false⟩ :=
  ⟨rfl, rfl, c4_nonint_aborts none 5 (fun _ => some msgAbc) msgAbc rfl rfl⟩

/-- Claim C8: when the stored config has no questions (missing document,
missing field, or empty list — all falsy), `on_thread_ready` is a no-op:
no effects, no responses, the thread state unchanged, normal return. -/
theorem c8_no_questions_noop (config : Option ConfigDoc)
    (replies : Nat → Option Msg) (env : Env) (th : ThreadState)
    (h : ((config.getD {}).questions).getD [] = []) :
    on_thread_ready config replies env th =
      ⟨[], [], th, RunOutcome.normal⟩ := by
  simp [on_thread_ready, h]

/-- Witness for C8 at a missing config document. -/
theorem c8_witness :
    (((none : Option ConfigDoc).getD {}).questions).getD [] = [] ∧
    on_thread_ready none (fun _ => some msgHello) envA thA =
      ⟨[], [], thA, RunOutcome.normal⟩ :=
  ⟨rfl, c8_no_questions_noop none (fun _ => some msgHello) envA thA rfl⟩

/-- Claim C1 counterexample: with the duplicated questions list of length
2 and every reply arriving, the responses dict has 1 entry, not 2 —
`responses[question] = answer` collapses duplicate question texts. -/
theorem c1_counterexample :
    ((cfgDup.questions).getD []).length = 2 ∧
    (on_thread_ready (some cfgDup) (fun _ => some msgHello) envA
        thA).responses.length = 1 := by
  constructor
  · rfl
  · rfl

/-- Claim C1 (amended): for every configured questions sequence of length
N whose questions are pairwise distinct, if every reply arrives before
its timeout, the responses dict has exactly N entries, one per question,
in the original question order (with duplicate questions, there is one
entry per distinct question). -/
theorem c1_responses_one_per_question (cfg : ConfigDoc) (qs : List String)
    (msgs : Nat → Msg) (env : Env) (th : ThreadState)
    (hq : cfg.questions = some qs) (hnd : qs.Nodup) :
    (on_thread_ready (some cfg) (fun n => some (msgs n)) env th).responses =
      expectedResponses msgs qs 0 ∧
    ((on_thread_ready (some cfg) (fun n => some (msgs n)) env
        th).responses).map Prod.fst = qs ∧
    ((on_thread_ready (some cfg) (fun n => some (msgs n)) env
        th).responses).length = qs.length := by
  have hrec : recordAnswers msgs qs 0 [] = expectedResponses msgs qs 0 := by
    have h := recordAnswers_eq_expected msgs qs 0 [] hnd
      (by intro q hq' p hp; simp at hp)
    simpa using h
  have hmain : (on_thread_ready (some cfg) (fun n => some (msgs n)) env
      th).responses = expectedResponses msgs qs 0 := by
    by_cases hne : qs = []
    · subst hne
      simp [on_thread_ready, hq, expectedResponses]
    · rw [on_thread_ready_success cfg qs msgs env th hq hne,
        successResult_responses]
      exact hrec
  refine ⟨hmain, ?_, ?_⟩
  · rw [hmain]
    exact expectedResponses_map_fst msgs qs 0
  · rw [hmain]
    have h := congrArg List.length (expectedResponses_map_fst msgs qs 0)
    simpa using h

/-- Witness for C1 at two distinct questions, all replies arriving. -/
theorem c1_witness :
    cfgTwo.questions = some ["q1", "q2"] ∧ (["q1", "q2"] : List String).Nodup ∧
    ((on_thread_ready (some cfgTwo) (fun _ => some msgHello) envA
        thA).responses).map Prod.fst = ["q1", "q2"] :=
  ⟨rfl, by decide,
    (c1_responses_one_per_question cfgTwo ["q1", "q2"] (fun _ => msgHello)
      envA thA rfl (by decide)).2.1⟩

/-- Claim C2: if the wait for the reply to question k times out, the
thread is closed with exactly the fixed inactivity reason and the handler
returns: the trace is intro, the first k+1 question prompts and the
close — no summary, no pin, no outro, no relocation — the category is
unchanged, and the responses dict is exactly what recording the first k
questions produced (its keys all lie among the first k questions). -/
theorem c2_timeout_aborts (cfg : ConfigDoc) (qs : List String)
    (replies : Nat → Option Msg) (env : Env) (th : ThreadState) (k : Nat)
    (hq : cfg.questions = some qs) (hk : k < qs.length)
    (hb : ∀ j, j < k → (replies j).isSome) (ht : replies k = none) :
    (on_thread_ready (some cfg) replies env th).thread.closed =
      some closeReason ∧
    (on_thread_ready (some cfg) replies env th).thread.category =
      th.category ∧
    (on_thread_ready (some cfg) replies env th).effects =
      introEffects cfg ++
        ((qs.take (k + 1)).map Effect.reply ++ [Effect.close closeReason]) ∧
    (on_thread_ready (some cfg) replies env th).responses =
      (askLoop replies (qs.take k) 0 [] none).responses ∧
    (∀ p ∈ (on_thread_ready (some cfg) replies env th).responses,
      p.1 ∈ qs.take k) ∧
    (on_thread_ready (some cfg) replies env th).outcome =
      RunOutcome.normal := by
  have h := on_thread_ready_timeout cfg qs replies env th k hq hk hb ht
  rw [h]
  refine ⟨rfl, rfl, rfl, rfl, ?_, rfl⟩
  intro p hp
  rcases askLoop_responses_keys replies (qs.take k) 0 [] none p hp with h1 | h1
  · exact h1
  · simp at h1

/-- Witness for C2: two questions, reply to the first arrives, wait for
the second times out. -/
theorem c2_witness :
    cfgTwo.questions = some ["q1", "q2"] ∧ 1 < (["q1", "q2"] : List String).length ∧
    (∀ j, j < 1 →
      (((fun i => if i = 0 then some msgHello else none) : Nat → Option Msg)
        j).isSome) ∧
    ((fun i => if i = 0 then some msgHello else none) : Nat → Option Msg) 1
      = none ∧
    (on_thread_ready (some cfgTwo)
        (fun i => if i = 0 then some msgHello else none) envA
        thA).thread.closed = some closeReason :=
  ⟨rfl, by decide, by decide, rfl,
    (c2_timeout_aborts cfgTwo ["q1", "q2"]
      (fun i => if i = 0 then some msgHello else none) envA thA 1 rfl
      (by decide) (by decide) rfl).1⟩

/-- Claim C5: in configquestions, an empty reply to the per-question
prompt for question j aborts the command with exactly the count prompt,
the first j question prompts and the text-only abort message, persisting
nothing; and a write happens only if the count reply parsed as an integer
and every one of the count question replies was non-empty. -/
theorem c5_empty_reply_aborts (store : Option ConfigDoc) (mvId : Int)
    (replies : Nat → Option Msg) (m0 : Msg) (count : Int) (j : Nat)
    (h0 : replies 0 = some m0) (hc : parseIntPy m0.content = some count)
    (hj1 : 1 ≤ j) (hjc : j ≤ count.toNat)
    (hprev : ∀ i, 1 ≤ i → i < j → ∃ mi, replies i = some mi ∧ mi.content ≠ "")
    (hempty : ∃ mj, replies j = some mj ∧ mj.content = "") :
    configquestions store mvId replies =
      ⟨"How many questions do you have?" ::
         (promptsFrom 1 j ++ ["Question must be text-only."]), store, false⟩ ∧
    (∀ replies2 : Nat → Option Msg,
       (configquestions store mvId replies2).wrote = true →
       ∃ m0b countb, replies2 0 = some m0b ∧
         parseIntPy m0b.content = some countb ∧
         ∀ t, 1 ≤ t → t ≤ countb.toNat →
           ∃ mt, replies2 t = some mt ∧ mt.content ≠ "") := by
  constructor
  · have hprev' : ∀ t, t < j - 1 →
        ∃ m, replies (1 + t) = some m ∧ m.content ≠ "" := by
      intro t ht
      exact hprev (1 + t) (by omega) (by omega)
    have hempty' : ∃ mj, replies (1 + (j - 1)) = some mj ∧ mj.content = "" := by
      rwa [show 1 + (j - 1) = j by omega]
    have hloop := cqLoop_empty_abort replies (j - 1) count.toNat 1 []
      (by omega) hprev' hempty'
    rw [show j - 1 + 1 = j from by omega] at hloop
    simp [configquestions, h0, hc, hloop]
  · intro replies2 hw
    exact configquestions_wrote_inv store mvId replies2 hw

/-- Witness for C5: count 2, first question answered with empty text. -/
theorem c5_witness :
    configquestions none 5
        (fun i => if i = 0 then some msgTwo else some msgEmptyTxt) =
      ⟨"How many questions do you have?" ::
         (promptsFrom 1 1 ++ ["Question must be text-only."]), none, false⟩ :=
  (c5_empty_reply_aborts none 5
    (fun i => if i = 0 then some msgTwo else some msgEmptyTxt) msgTwo 2 1
    rfl rfl (by decide) (by decide)
    (by intro i h1 h2; omega) ⟨msgEmptyTxt, rfl, rfl⟩).1

/-- Claim C6: each configuration write is an upsert-merge touching only
the variant's own field plus move_to: configoutro and configintro
preserve every other field of the existing document (in particular an
existing questions list), and a completed configquestions run preserves
intro and outro. -/
theorem c6_upsert_merge (doc : ConfigDoc) (mvId : Int) (m : Msg)
    (hne : m.content ≠ "") :
    (∃ d, (configoutro (some doc) mvId (some m)).store = some d ∧
       d.questions = doc.questions ∧ d.intro = doc.intro ∧
       d.outro = some m.content ∧ d.move_to = some (toString mvId)) ∧
    (∃ d, (configintro (some doc) mvId (some m)).store = some d ∧
       d.questions = doc.questions ∧ d.outro = doc.outro ∧
       d.intro = some m.content ∧ d.move_to = some (toString mvId)) ∧
    (∀ replies : Nat → Option Msg,
       (configquestions (some doc) mvId replies).wrote = true →
       ∃ d, (configquestions (some doc) mvId replies).store = some d ∧
         d.intro = doc.intro ∧ d.outro = doc.outro ∧
         d.move_to = some (toString mvId)) := by
  refine ⟨?_, ?_, ?_⟩
  · refine ⟨⟨doc.questions, doc.intro, some m.content,
      some (toString mvId)⟩, ?_, rfl, rfl, rfl, rfl⟩
    simp [configoutro, hne]
  · refine ⟨⟨doc.questions, some m.content, doc.outro,
      some (toString mvId)⟩, ?_, rfl, rfl, rfl, rfl⟩
    simp [configintro, hne]
  · intro replies hw
    obtain ⟨qs, hst⟩ := configquestions_wrote_store (some doc) mvId replies hw
    exact ⟨_, hst, rfl, rfl, rfl⟩

/-- Witness for C6: setting the outro on a store that already holds a
questions list keeps that questions list. -/
theorem c6_witness :
    msgBye.content ≠ "" ∧
    (∃ d, (configoutro (some docQx) 7 (some msgBye)).store = some d ∧
       d.questions = docQx.questions ∧ d.intro = docQx.intro ∧
       d.outro = some msgBye.content ∧ d.move_to = some (toString (7 : Int))) :=
  ⟨by decide, (c6_upsert_merge docQx 7 msgBye (by decide)).1⟩

theorem getLast?_cons_append_singleton {α : Type} (a x : α) (l : List α) :
    (a :: (l ++ [x])).getLast? = some x := by
  rw [← List.cons_append, List.getLast?_concat]

/-- Claim C7: at the relocate step (with a numeric move_to configured and
all replies arriving), if the destination category exists the thread
channel is moved there with permissions synchronized, else a warning is
logged and the category is unchanged; either way the handler completes
normally. -/
theorem c7_relocate (cfg : ConfigDoc) (qs : List String) (msgs : Nat → Msg)
    (env : Env) (th : ThreadState) (s : String) (cid : Int)
    (hq : cfg.questions = some qs) (hne : qs ≠ [])
    (hmv : cfg.move_to = some s) (hparse : parseIntPy s = some cid) :
    (on_thread_ready (some cfg) (fun n => some (msgs n)) env th).outcome =
      RunOutcome.normal ∧
    (cid ∈ env.categories →
      (on_thread_ready (some cfg) (fun n => some (msgs n)) env
          th).thread.category = some cid ∧
      ((on_thread_ready (some cfg) (fun n => some (msgs n)) env
          th).effects).getLast? = some (Effect.moveChannel cid true)) ∧
    (cid ∉ env.categories →
      (on_thread_ready (some cfg) (fun n => some (msgs n)) env
          th).thread.category = th.category ∧
      ((on_thread_ready (some cfg) (fun n => some (msgs n)) env
          th).effects).getLast? = some Effect.warnNoMoveTo) := by
  rw [on_thread_ready_success cfg qs msgs env th hq hne]
  unfold successResult Env.getChannel
  simp only [hmv, hparse]
  by_cases hc : cid ∈ env.categories
  · simp [hc, List.getLast?_concat, getLast?_cons_append_singleton]
  · simp [hc, List.getLast?_concat, getLast?_cons_append_singleton]

/-- Witness for C7: questions configured with move_to 5 in an
environment where category 5 exists: the thread ends up in category 5. -/
theorem c7_witness :
    cfgTwo.questions = some ["q1", "q2"] ∧ cfgTwo.move_to = some "5" ∧
    parseIntPy "5" = some 5 ∧ (5 : Int) ∈ envA.categories ∧
    (on_thread_ready (some cfgTwo) (fun _ => some msgHello) envA
        thA).thread.category = some 5 :=
  ⟨rfl, rfl, rfl, by decide,
    ((c7_relocate cfgTwo ["q1", "q2"] (fun _ => msgHello) envA thA "5" 5
      rfl (by decide) rfl rfl).2.1 (by decide)).1⟩

/-- Claim C9 counterexample: with a duplicated question list of length 2
and every reply arriving, the pinned summary carries a single field, not
one field per question. -/
theorem c9_counterexample :
    summaryFieldCounts
        ((on_thread_ready (some cfgDup) (fun _ => some msgHello) envA
          thA).effects) = [1] ∧
    ((cfgDup.questions).getD []).length = 2 := by
  constructor
  · rfl
  · rfl

/-- Claim C9 (amended): the summary step sends one message containing one
non-inline labeled field per responses entry — for pairwise-distinct
questions that is exactly one field per question, in question order, with
the question text as label and the derived answer as value — whose author
metadata is the last responder's name and avatar url, and the message is
pinned immediately after being sent. -/
theorem c9_summary_shape (cfg : ConfigDoc) (qs : List String)
    (msgs : Nat → Msg) (env : Env) (th : ThreadState)
    (hq : cfg.questions = some qs) (hne : qs ≠ []) (hnd : qs.Nodup) :
    (∃ tail, (on_thread_ready (some cfg) (fun n => some (msgs n)) env
        th).effects =
      introEffects cfg ++ (qs.map Effect.reply ++
        ([Effect.sendSummary (summaryFields (expectedResponses msgs qs 0))
            (msgs (qs.length - 1)).author.name
            (msgs (qs.length - 1)).author.avatarUrl,
          Effect.pin] ++ (outroEffects cfg ++ tail)))) ∧
    ((summaryFields (expectedResponses msgs qs 0)).map (fun f => f.1) = qs) ∧
    (∀ f ∈ summaryFields (expectedResponses msgs qs 0), f.2.2 = false) := by
  have hrec : recordAnswers msgs qs 0 [] = expectedResponses msgs qs 0 := by
    have h := recordAnswers_eq_expected msgs qs 0 [] hnd
      (by intro q hq' p hp; simp at hp)
    simpa using h
  refine ⟨?_, ?_, ?_⟩
  · rw [on_thread_ready_success cfg qs msgs env th hq hne]
    unfold successResult
    rcases hm : cfg.move_to with _ | s
    · exact ⟨[], by simp [hrec]⟩
    · rcases hp : parseIntPy s with _ | c
      · exact ⟨[], by simp [hp, hrec]⟩
      · rcases hg : env.getChannel c with _ | x
        · exact ⟨[Effect.warnNoMoveTo], by simp [hp, hg, hrec]⟩
        · exact ⟨[Effect.moveChannel x true], by simp [hp, hg, hrec]⟩
  · have h : ∀ r : List (String × String),
        (summaryFields r).map (fun f => f.1) = r.map Prod.fst := by
      intro r
      induction r with
      | nil => rfl
      | cons a t ih => simp only [summaryFields, List.map_cons] at ih ⊢; rw [ih]
    rw [h]
    exact expectedResponses_map_fst msgs qs 0
  · intro f hf
    simp only [summaryFields, List.mem_map] at hf
    obtain ⟨p, _, hpf⟩ := hf
    rw [← hpf]

/-- Witness for C9 at two distinct questions. -/
theorem c9_witness :
    (summaryFields
      (expectedResponses (fun _ => msgHello) ["q1", "q2"] 0)).map
        (fun f => f.1) = ["q1", "q2"] :=
  (c9_summary_shape cfgTwo ["q1", "q2"] (fun _ => msgHello) envA thA rfl
    (by decide) (by decide)).2.1

/-- Claim C10: with questions configured but move_to absent or
non-numeric, the handler raises (KeyError on the missing key, ValueError
on the failed int parse) after the summary was sent and pinned and the
outro sent: the trace contains no warning and no channel move, and the
thread state is unchanged — the non-fatal log-and-skip path needs a
numeric move_to. -/
theorem c10_bad_move_to_raises (cfg : ConfigDoc) (qs : List String)
    (msgs : Nat → Msg) (env : Env) (th : ThreadState)
    (hq : cfg.questions = some qs) (hne : qs ≠ [])
    (hmv : cfg.move_to = none ∨
      ∃ s, cfg.move_to = some s ∧ parseIntPy s = none) :
    (∃ e, (on_thread_ready (some cfg) (fun n => some (msgs n)) env
        th).outcome = RunOutcome.error e) ∧
    (on_thread_ready (some cfg) (fun n => some (msgs n)) env th).thread =
      th ∧
    (cfg.move_to = none →
      (on_thread_ready (some cfg) (fun n => some (msgs n)) env th).outcome =
        RunOutcome.error (RunError.keyError "move_to")) ∧
    (∀ s, cfg.move_to = some s →
      (on_thread_ready (some cfg) (fun n => some (msgs n)) env th).outcome =
        RunOutcome.error RunError.valueError) ∧
    (on_thread_ready (some cfg) (fun n => some (msgs n)) env th).effects =
      introEffects cfg ++ (qs.map Effect.reply ++
        ([Effect.sendSummary (summaryFields (recordAnswers msgs qs 0 []))
            (msgs (qs.length - 1)).author.name
            (msgs (qs.length - 1)).author.avatarUrl,
          Effect.pin] ++ outroEffects cfg)) := by
  rw [on_thread_ready_success cfg qs msgs env th hq hne]
  unfold successResult
  rcases hmv with hm | ⟨s, hm, hp⟩
  · simp [hm]
  · simp [hm, hp]

/-- Witness for C10: one question, no move_to key: KeyError after the
summary. -/
theorem c10_witness :
    cfgNoMove.move_to = none ∧
    (on_thread_ready (some cfgNoMove) (fun _ => some msgHello) envA
        thA).outcome = RunOutcome.error (RunError.keyError "move_to") :=
  ⟨rfl,
    (c10_bad_move_to_raises cfgNoMove ["q"] (fun _ => msgHello) envA thA
      rfl (by decide) (Or.inl rfl)).2.2.1 rfl⟩

end QuestionsPlugin
